import Mathlib

/-!
Shallow embedding of the streaming chat-completion client
(request assembler, cancellation registry, streaming transport,
context-compression engine) and proofs about its claims.

The repository holds four iterations of the same module; definitions
below carry a version suffix naming the iteration they are translated
from: `_v0` (part_000), `_v1` (part_001), `_v2` (part_002), `_v3`
(part_003).  Where two iterations are textually identical only one
definition is given and the doc comment says so.
-/

/-- Modelled from the spec: the summarization level of a conversation's
model configuration.  The `SummaryLevel` enum lives in the external
`store` module (not in the sources); the code only ever compares a
level with `SummaryLevel.Incremental`, so one constructor stands for
the incremental level and `off` stands for every other level. -/
inductive SummaryLevel where
  | off
  | incremental
deriving DecidableEq

/-- Modelled from the spec: effective request parameters (section 3,
"ModelConfig").  The record type itself lives in the external `store`
module; the fields are the ones the sources read and write.
Temperatures and penalties are JS numbers, embedded as rationals (no
claim computes with them). -/
structure ModelConfig where
  model : String
  temperature : Rat
  presence_penalty : Rat
  summaryLevel : SummaryLevel
  compressMessageLengthThreshold : Nat
deriving DecidableEq

/-- Modelled from the spec: one conversational turn (section 3,
"Message").  The type lives in the external `store` module; fields are
the ones the sources use.  Optional JS fields are `Option`s, with
`summary = none` for an absent summary. -/
structure Message where
  id : Nat := 0
  role : String
  content : String
  date : String := ""
  summary : Option String := none
  useSummary : Bool := false
  nSummaryTokens : Option Nat := none
  hidden : Bool := false
deriving DecidableEq

/-- Modelled from the spec: a conversation mask — the context preamble
(persistent messages prepended to every request) plus the
conversation-level model configuration.  Lives in the external `store`
module. -/
structure Mask where
  context : List Message
  modelConfig : ModelConfig
deriving DecidableEq

/-- Modelled from the spec: a conversation (section 3) — an ordered
sequence of messages plus its mask.  Lives in the external `store`
module. -/
structure ChatSession where
  messages : List Message
  mask : Mask
deriving DecidableEq

/-- Modelled from the spec: the fixed marker string
(`INCREMENTAL_SUMMARY_PREFIX`, from the external `constant` module)
prepended to summarized content so the remote model knows the text is
a summary, not the original.  Its exact wording is immaterial to every
claim; a fixed placeholder text is used. -/
def summaryMarker : String := "[Previously summarized]"

/-- Modelled from the spec: the instruction text
(`Locale.Store.Prompt.SummarizeIncremental`, from the external
`locales` module) directing the remote model to produce an incremental
summary.  Its exact wording is immaterial to every claim. -/
def summarizeIncrementalText : String :=
  "Produce an incremental summary of the last message, given the conversation so far."

/-- JS truthiness of an optional string: `undefined` and the empty
string are falsy. -/
def strTruthy : Option String → Bool
  | none => false
  | some s => s != ""

/- ----------------------------------------------------------------
Cancellation Registry ("ControllerPool").

The four iterations carry a textually identical `ControllerPool`
object: a record from string keys to `AbortController`s plus
`addController` / `stop` / `stopAll` / `hasPending` / `remove` /
`key`.  An `AbortController` is embedded as a numeric handle id; the
effect of calling `abort()` on a handle is recorded in an `aborted`
list, separate from the key→handle record, because `abort()` mutates
the controller object and not the registry.  The JS record (one
binding per key) is embedded as an association list kept duplicate
free by erasing the key on insertion.
---------------------------------------------------------------- -/

structure PoolState where
  controllers : List (String × Nat)
  aborted : List Nat
deriving DecidableEq

/-- `key(sessionIndex, messageIndex)` — the composite string key
`` `${sessionIndex},${messageIndex}` ``. -/
def ControllerPool.key (sessionIndex messageIndex : Nat) : String :=
  toString sessionIndex ++ "," ++ toString messageIndex

/-- Lookup of `this.controllers[key]` (undefined when absent). -/
def ControllerPool.lookup (s : PoolState) (k : String) : Option Nat :=
  (s.controllers.find? (fun e => e.1 == k)).map (fun e => e.2)

/-- `addController(sessionIndex, messageId, controller)` — stores the
handle under the composite key, overwriting any existing entry. -/
def ControllerPool.addController
    (s : PoolState) (sessionIndex messageId : Nat) (controller : Nat) : PoolState :=
  let k := ControllerPool.key sessionIndex messageId
  { s with controllers := (k, controller) :: s.controllers.filter (fun e => e.1 != k) }

/-- `stop(sessionIndex, messageId)` — looks the key up and calls
`controller?.abort()`: the handle, if present, is recorded as aborted;
the registry record itself is untouched. -/
def ControllerPool.stop (s : PoolState) (sessionIndex messageId : Nat) : PoolState :=
  match ControllerPool.lookup s (ControllerPool.key sessionIndex messageId) with
  | some c => { s with aborted := c :: s.aborted }
  | none => s

/-- `stopAll()` — calls `abort()` on every registered handle. -/
def ControllerPool.stopAll (s : PoolState) : PoolState :=
  { s with aborted := s.controllers.map (fun e => e.2) ++ s.aborted }

/-- `hasPending()` — true iff at least one handle is registered. -/
def ControllerPool.hasPending (s : PoolState) : Bool :=
  s.controllers.length > 0

/-- `remove(sessionIndex, messageId)` — deletes the entry for the key
(safe whether or not it exists). -/
def ControllerPool.remove (s : PoolState) (sessionIndex messageId : Nat) : PoolState :=
  let k := ControllerPool.key sessionIndex messageId
  { s with controllers := s.controllers.filter (fun e => e.1 != k) }

/- ----------------------------------------------------------------
Streaming Transport (`requestChatStream`).

All four iterations share the same control flow; part_003 additionally
computes token counts with a local tokenizer and passes them to
`onMessage`.  The embedding follows part_003 and is parameterized by
the tokenizer `enc : String → Nat` (the external `@dqbd/tiktoken`
encoder); the other iterations are the same machine with the token
arguments absent.

The asynchronous run is embedded as a function from the network's
behaviour to the finite list of callback invocations (events) the call
performs, in order.  The behaviour records how the `fetch` promise
settles and then how each `reader.read()` await settles:
  - `chunk text done`: the read resolved in time with a present
    `value` that the stateful decoder turned into `text`, and with the
    given `done` flag;
  - `eos`: the read resolved with no `value` (end of stream), so the
    loop breaks and `finish()` runs;
  - `timeout`: the per-chunk idle watchdog fired before the read
    settled: the timer callback runs `finish()` — `onMessage(text,
    done=true)` then `controller.abort()` — after which the aborted
    pending read rejects, the exception propagates to the `catch`
    block, and `onError` is invoked;
  - `aborted`: a caller-initiated `abort()` (via `onController` or the
    registry) rejected the pending read: the `catch` block invokes
    `onError` and no completion is synthesized.
A reads list that runs out is interpreted as the reader reporting end
of stream.
---------------------------------------------------------------- -/

/-- Classification of the error passed to `onError`:
`new Error("Unauthorized")` with status 401, `new Error("Stream
Error")` with any other non-2xx status, or the exception caught by the
`catch` block (network failure or abort), passed with no status. -/
inductive ErrKind where
  | unauthorized
  | streamError
  | caught
deriving DecidableEq

/-- One callback invocation: `onMessage(text, done, nPromptTokens?,
nCompletionTokens?)` or `onError(error, statusCode?)`. -/
inductive Event where
  | msg (text : String) (done : Bool)
      (nPromptTokens : Option Nat) (nCompletionTokens : Option Nat)
  | err (kind : ErrKind) (status : Option Nat)
deriving DecidableEq

/-- Whether an event is an `onMessage(..., done=true)` invocation. -/
def Event.isDoneMsg : Event → Bool
  | .msg _ true _ _ => true
  | _ => false

/-- Whether an event is an `onError` invocation. -/
def Event.isErr : Event → Bool
  | .err _ _ => true
  | _ => false

/-- The `(text, done)` view of an `onMessage` event. -/
def Event.view? : Event → Option (String × Bool)
  | .msg t d _ _ => some (t, d)
  | .err _ _ => none

/-- The `(text, done)` arguments of the `onMessage` invocations of a
trace, in order. -/
def msgView (tr : List Event) : List (String × Bool) :=
  tr.filterMap Event.view?

/-- Number of `onMessage(..., done=true)` invocations in a trace. -/
def countDone (tr : List Event) : Nat := tr.countP Event.isDoneMsg

/-- Number of `onError` invocations in a trace. -/
def countErr (tr : List Event) : Nat := tr.countP Event.isErr

/-- How one `await reader?.read()` settles (see the section comment). -/
inductive ReadResult where
  | chunk (text : String) (done : Bool)
  | eos
  | timeout
  | aborted
deriving DecidableEq

/-- How the `fetch` promise settles: rejected (network failure, or the
overall-request watchdog / a caller aborting before the response
headers arrive), or resolved with an HTTP status code. -/
inductive FetchOutcome where
  | thrown
  | status (code : Nat)
deriving DecidableEq

/-- The network behaviour one `requestChatStream` call observes. -/
structure NetBehavior where
  outcome : FetchOutcome
  reads : List ReadResult
deriving DecidableEq

/-- `res.ok`: the HTTP status is in the inclusive range 200–299. -/
def resOk (code : Nat) : Bool :=
  decide (200 ≤ code) && decide (code < 300)

/-- `messages.map((message) => message.content).join("\n")`. -/
def concatContents (messages : List Message) : String :=
  String.intercalate "\n" (messages.map (fun m => m.content))

/-- The read loop of `requestChatStream` (part_003 lines 236–261),
started with accumulated text `acc` (initially `""`): each chunk is
appended to `responseText` and reported through `onMessage(text,
false, nPromptTokens)`; a chunk whose `done` flag is set, a missing
value, or an exhausted stream ends the loop and `finish(nPromptTokens,
nCompletionTokens)` reports `onMessage(text, true, p, enc text)`; the
idle watchdog synthesizes the same completion and the subsequent
abort-induced read rejection reaches the `catch` block, which reports
`onError`; a caller abort rejects the read without a synthesized
completion. -/
def runLoop (enc : String → Nat) (p : Nat) : String → List ReadResult → List Event
  | acc, [] => [Event.msg acc true (some p) (some (enc acc))]
  | acc, ReadResult.chunk v d :: rest =>
      let acc2 := acc ++ v
      Event.msg acc2 false (some p) none ::
        (if d then [Event.msg acc2 true (some p) (some (enc acc2))]
         else runLoop enc p acc2 rest)
  | acc, ReadResult.eos :: _ => [Event.msg acc true (some p) (some (enc acc))]
  | acc, ReadResult.timeout :: _ =>
      [Event.msg acc true (some p) (some (enc acc)), Event.err ErrKind.caught none]
  | _acc, ReadResult.aborted :: _ => [Event.err ErrKind.caught none]

/-- `requestChatStream(messages, options)` (part_003 lines 176–273) as
a trace of callback invocations: a rejected `fetch` reaches the
`catch` block (`onError` without status); a non-success status is
classified 401 → Unauthorized / other → Stream Error; a success status
computes `nPromptTokens = enc(concatContents messages)` and enters the
read loop. -/
def requestChatStream (enc : String → Nat) (messages : List Message)
    (b : NetBehavior) : List Event :=
  let p := enc (concatContents messages)
  match b.outcome with
  | FetchOutcome.thrown => [Event.err ErrKind.caught none]
  | FetchOutcome.status code =>
      if resOk code then runLoop enc p "" b.reads
      else if code == 401 then [Event.err ErrKind.unauthorized (some code)]
      else [Event.err ErrKind.streamError (some code)]

/-- Whether the idle watchdog fires during the read loop: the loop
reaches a read that times out before any loop exit. -/
def idleFiredDuring : List ReadResult → Bool
  | [] => false
  | ReadResult.chunk _ d :: rest => if d then false else idleFiredDuring rest
  | ReadResult.eos :: _ => false
  | ReadResult.timeout :: _ => true
  | ReadResult.aborted :: _ => false

/-- Whether the idle watchdog fires during a call: the response was
successful and the read loop reaches a timed-out read. -/
def idleFired (b : NetBehavior) : Bool :=
  match b.outcome with
  | FetchOutcome.thrown => false
  | FetchOutcome.status code => resOk code && idleFiredDuring b.reads

/-- Concrete behaviour for the idle-watchdog counterexample: a 200
response delivers one chunk and then stalls until the watchdog
fires. -/
def idleTimeoutBehavior : NetBehavior :=
  ⟨FetchOutcome.status 200, [ReadResult.chunk "Hel" false, ReadResult.timeout]⟩

/-- Concrete behaviour of the spec's simulated test: a 200 response
delivering chunks `"Hel"`, `"lo"`, then end of stream. -/
def helloBehavior : NetBehavior :=
  ⟨FetchOutcome.status 200,
    [ReadResult.chunk "Hel" false, ReadResult.chunk "lo" false, ReadResult.eos]⟩

/- ----------------------------------------------------------------
Request Assembler (`makeRequestParam`).

part_000 and part_003 carry the same assembler (summary substitution
gated on the conversation's summarization level and a truthy summary);
part_001 gates on the `useSummary` flag and prepends a persona
preamble; part_002 renders each message through `getMessageOrSummary`
(substitution whenever a truthy summary exists, the flag unchecked by
default) and prepends an explanatory preamble.  The global store
reads (`useAppConfig` / `useChatStore`) are passed as explicit
`appConfig` / `session` arguments.
---------------------------------------------------------------- -/

/-- A `{role, content}` wire pair of the outbound request. -/
structure SendMessage where
  role : String
  content : String
deriving DecidableEq

/-- The wire-ready chat request payload. -/
structure ChatRequest where
  messages : List SendMessage
  stream : Option Bool
  model : String
  temperature : Rat
  presence_penalty : Rat
deriving DecidableEq

/-- The optional per-call overrides of `makeRequestParam`. -/
structure RequestOptions where
  stream : Option Bool := none
  overrideModel : Option String := none
  overrideTemperature : Option Rat := none
  overridePresencePenalty : Option Rat := none
deriving DecidableEq

/-- `{...useAppConfig.getState().modelConfig, ...session.mask.modelConfig}`:
spreading two complete `ModelConfig` records keeps every field of the
second. -/
def mergeModelConfig (_appConfig sessionConfig : ModelConfig) : ModelConfig :=
  sessionConfig

/-- The override block shared verbatim by every iteration of
`makeRequestParam`: `overrideModel` applies when truthy (a nonempty
string), the numeric overrides when not null/undefined. -/
def applyOverrides (cfg : ModelConfig) (options : RequestOptions) : ModelConfig :=
  let c1 := match options.overrideModel with
    | some s => if s != "" then { cfg with model := s } else cfg
    | none => cfg
  let c2 := match options.overrideTemperature with
    | some t => { c1 with temperature := t }
    | none => c1
  match options.overridePresencePenalty with
  | some pp => { c2 with presence_penalty := pp }
  | none => c2

/-- `makeRequestParam` of part_000 lines 17–59 (identical in part_003
lines 26–68): a message is sent as the marker-prefixed summary iff the
session's summarization level is `Incremental` and the message's
summary is truthy, else as its original content. -/
def makeRequestParam_v0 (appConfig : ModelConfig) (session : ChatSession)
    (messages : List Message) (options : RequestOptions) : ChatRequest :=
  let sendMessages : List SendMessage := messages.map (fun v =>
    { role := v.role
      content :=
        if session.mask.modelConfig.summaryLevel == SummaryLevel.incremental
            && strTruthy v.summary
        then summaryMarker ++ " " ++ (v.summary.getD "")
        else v.content })
  let modelConfig :=
    applyOverrides (mergeModelConfig appConfig session.mask.modelConfig) options
  { messages := sendMessages
    stream := options.stream
    model := modelConfig.model
    temperature := modelConfig.temperature
    presence_penalty := modelConfig.presence_penalty }

/-- The persona preamble message prepended by part_001's
`makeRequestParam` (lines 45–52). -/
def swiftyPreamble : SendMessage :=
  { role := "system"
    content := "You are a Swifty! Answer any questions and conduct conversations carefully and to the point, addressing an intelligent teenager. But whenever possible, also insert a relevant(-ish) Taylor Swift quote or trivia (don't make these up). Ideally, the (relative) relevance of the quote/trivia, or the way you introduce it, should be sly, funny or ridiculous. BTW, you're favorite album is 1989, but you can change your mind as to your favorite song. And you hate Olivia Rodrigo - be funny about that too. Good luck!" }

/-- `makeRequestParam` of part_001 lines 27–77: a message is sent as
the marker-prefixed summary iff its `useSummary` flag is set (a JS
template literal renders an absent summary as the text "undefined"),
and the persona preamble is prepended. -/
def makeRequestParam_v1 (appConfig : ModelConfig) (session : ChatSession)
    (messages : List Message) (options : RequestOptions) : ChatRequest :=
  let baseMessages : List SendMessage := messages.map (fun message =>
    { role := message.role
      content :=
        if message.useSummary
        then summaryMarker ++ " " ++ (message.summary.getD "undefined")
        else message.content })
  let sendMessages := swiftyPreamble :: baseMessages
  let modelConfig :=
    applyOverrides (mergeModelConfig appConfig session.mask.modelConfig) options
  { messages := sendMessages
    stream := options.stream
    model := modelConfig.model
    temperature := modelConfig.temperature
    presence_penalty := modelConfig.presence_penalty }

/-- `isMessageInSummaryMode` of part_002 lines 317–323: a message is
rendered as its summary iff the summary is truthy and, only when
`checkFlag` is set, the `useSummary` flag is also set.  The `session`
argument is unused, as in the source. -/
def isMessageInSummaryMode (message : Message) (_session : ChatSession)
    (checkFlag : Bool := false) : Bool :=
  strTruthy message.summary && (!checkFlag || message.useSummary)

/-- `getMessageOrSummary` of part_002 lines 325–339: a fresh
`{role, content, date}` message whose content is the summary when in
summary mode (else the original content, with a missing value
defaulting to `""`), together with the summary-mode flag. -/
def getMessageOrSummary (message : Message) (session : ChatSession)
    (checkFlag : Bool := false) : Message × Bool :=
  let inSummaryMode := isMessageInSummaryMode message session checkFlag
  ({ role := message.role
     content := if inSummaryMode then message.summary.getD "" else message.content
     date := message.date },
   inSummaryMode)

/-- The explanatory preamble message of part_002's `makeRequestParam`
(lines 29–33). -/
def summaryIntro : Message :=
  { role := "system"
    content := "Note that any message prefixed by \"" ++ summaryMarker
      ++ "\" has been previously summarized by you, so it does not appear in full or in the original form."
    date := "" }

/-- `makeRequestParam` of part_002 lines 19–68: the preamble and the
messages are each rendered through `getMessageOrSummary` (flag
unchecked), and content rendered in summary mode gets the marker
prefix. -/
def makeRequestParam_v2 (appConfig : ModelConfig) (session : ChatSession)
    (messages : List Message) (options : RequestOptions) : ChatRequest :=
  let sendMessages : List SendMessage :=
    ((summaryIntro :: messages).map (fun message =>
        getMessageOrSummary message session)).map (fun p =>
      { role := p.1.role
        content :=
          if p.2 then summaryMarker ++ " " ++ p.1.content else p.1.content })
  let modelConfig :=
    applyOverrides (mergeModelConfig appConfig session.mask.modelConfig) options
  { messages := sendMessages
    stream := options.stream
    model := modelConfig.model
    temperature := modelConfig.temperature
    presence_penalty := modelConfig.presence_penalty }

/- ----------------------------------------------------------------
Context Compression Engine (`summarizeMessageIncrementally`).

The summarization sub-request is a non-streaming `requestChat`; its
observable outcome is a parameter: `requestChat` resolves with a
parsed `ChatResponse`, resolves with `undefined` (the JSON parse
failure it catches itself), or rejects (its `await fetch` sits outside
its `try` block, so a transport-level failure propagates).  The
results record which message list was passed to `requestChat` (if
any), whether the returned promise rejects, and the state of the
target message afterwards.
---------------------------------------------------------------- -/

/-- The fields of a parsed non-streaming `ChatResponse` the engine
reads: `choices[0].message.content` and the usage token counts. -/
structure ChatResponse where
  content : Option String := none
  promptTokens : Option Nat := none
  completionTokens : Option Nat := none
deriving DecidableEq

/-- How the summarization sub-request settles, as observed by the
continuation: the sub-request's promise rejects (transport failure),
or resolves with `requestChat`'s value (`none` models the `undefined`
it returns after catching a JSON parse failure). -/
inductive ReqOutcome where
  | thrown
  | returned (response : Option ChatResponse)
deriving DecidableEq

/-- The summary text the continuation extracts:
`response?.choices?.at(0)?.message?.content`. -/
def extractedContent : ReqOutcome → Option String
  | ReqOutcome.thrown => none
  | ReqOutcome.returned response => response.bind (fun r => r.content)

/-- `Array.prototype.indexOf` on the session's message list (part_001
line 343, part_002 line 359): the index of the first match, `none`
standing for -1.  JS compares by object identity; structural equality
is its counterpart in this embedding. -/
def indexOfMessage : List Message → Message → Option Nat
  | [], _ => none
  | x :: xs, m => if x = m then some 0 else (indexOfMessage xs m).map (fun i => i + 1)

/-- The instruction message of part_002's sub-request (lines 366–370). -/
def summarizeInstructionMessage : Message :=
  { role := "system", content := summarizeIncrementalText, date := "" }

/-- `SummaryResponse` of part_001 lines 21–25. -/
structure SummaryResponse where
  messageId : Option Nat := none
  summary : Option String := none
  nSummaryTokens : Option Nat := none
deriving DecidableEq

/-- Observable result of part_001's `summarizeMessageIncrementally`. -/
structure SummarizeResultV1 where
  subRequest : Option (List Message)
  thrown : Bool
  response : SummaryResponse
deriving DecidableEq

/-- `summarizeMessageIncrementally` of part_001 lines 328–370: the
level and length guards are commented out in this iteration, so every
message found in its session issues the sub-request — the session's
system context messages, the prior non-hidden messages (target
excluded), the instruction message (carrying the target's date), then
the target. -/
def summarizeMessageIncrementally_v1 (message : Message) (session : ChatSession)
    (o : ReqOutcome) : SummarizeResultV1 :=
  let systemMessages := session.mask.context.filter (fun m => m.role == "system")
  match indexOfMessage session.messages message with
  | none => ⟨none, false, { messageId := some message.id }⟩
  | some i =>
      let req := systemMessages
        ++ (session.messages.take i).filter (fun m => !m.hidden)
        ++ [{ role := "system", content := summarizeIncrementalText,
              date := message.date }]
        ++ [message]
      match o with
      | ReqOutcome.thrown => ⟨some req, true, {}⟩
      | ReqOutcome.returned response =>
          ⟨some req, false,
            { messageId := some message.id
              summary := response.bind (fun r => r.content)
              nSummaryTokens := response.bind (fun r => r.completionTokens) }⟩

/-- Observable result of part_002's `summarizeMessageIncrementally`:
which sub-request was issued (if any), whether the returned promise
rejects, and the target message's state afterwards (the source mutates
the message in place and resolves with it). -/
structure SummarizeResultV2 where
  subRequest : Option (List Message)
  thrown : Bool
  message : Message
deriving DecidableEq

/-- `summarizeMessageIncrementally` of part_002 lines 341–392: pass
through unmodified unless the summarization level is `Incremental`,
the content length meets the threshold, and the message is found in
its session; otherwise issue the sub-request — the session's system
context messages, the instruction message, then every prior message up
to and including the target, each rendered through
`getMessageOrSummary` (flag unchecked) — and fold a truthy returned
summary into the message (summary text, `useSummary` flag, completion
token count). -/
def summarizeMessageIncrementally_v2 (message : Message) (session : ChatSession)
    (o : ReqOutcome) : SummarizeResultV2 :=
  if session.mask.modelConfig.summaryLevel ≠ SummaryLevel.incremental then
    ⟨none, false, message⟩
  else if message.content.length
      < session.mask.modelConfig.compressMessageLengthThreshold then
    ⟨none, false, message⟩
  else
    let systemMessages := session.mask.context.filter (fun m => m.role == "system")
    match indexOfMessage session.messages message with
    | none => ⟨none, false, message⟩
    | some i =>
        let req := systemMessages
          ++ [summarizeInstructionMessage]
          ++ (session.messages.take (i + 1)).map
              (fun m => (getMessageOrSummary m session false).1)
        match o with
        | ReqOutcome.thrown => ⟨some req, true, message⟩
        | ReqOutcome.returned response =>
            match response.bind (fun r => r.content) with
            | some summary =>
                if summary != "" then
                  ⟨some req, false,
                    { message with
                        summary := some summary
                        useSummary := true
                        nSummaryTokens := response.bind (fun r => r.completionTokens) }⟩
                else ⟨some req, false, message⟩
            | none => ⟨some req, false, message⟩

/- ----------------------------------------------------------------
Concrete fixtures used by counterexamples and witnesses.
---------------------------------------------------------------- -/

/-- A model configuration with incremental summarization enabled and a
compression threshold of 100 characters. -/
def incACfg : ModelConfig :=
  { model := "gpt-3.5-turbo", temperature := 1, presence_penalty := 0
    summaryLevel := SummaryLevel.incremental
    compressMessageLengthThreshold := 100 }

/-- A model configuration with summarization disabled. -/
def offCfg : ModelConfig :=
  { model := "gpt-3.5-turbo", temperature := 1, presence_penalty := 0
    summaryLevel := SummaryLevel.off
    compressMessageLengthThreshold := 100 }

/-- A user message with content "hi" carrying the cached summary "s"
whose substitution flag is off. -/
def flagOffMessage : Message :=
  { id := 1, role := "user", content := "hi", summary := some "s", useSummary := false }

/-- A session (incremental level) containing only `flagOffMessage`. -/
def flagOffSession : ChatSession :=
  { messages := [flagOffMessage], mask := { context := [], modelConfig := incACfg } }

/-- A one-character user message, far below the 100-character
threshold. -/
def shortMessage : Message := { id := 2, role := "user", content := "x" }

/-- A session (incremental level, threshold 100) containing only
`shortMessage`. -/
def shortSession : ChatSession :=
  { messages := [shortMessage], mask := { context := [], modelConfig := incACfg } }

/-- A model configuration with incremental summarization enabled and a
compression threshold of one character. -/
def lowThresholdCfg : ModelConfig :=
  { model := "gpt-3.5-turbo", temperature := 1, presence_penalty := 0
    summaryLevel := SummaryLevel.incremental
    compressMessageLengthThreshold := 1 }

/-- A hidden prior user message. -/
def hiddenMessage : Message := { id := 3, role := "user", content := "secret", hidden := true }

/-- A summarization target following `hiddenMessage`, long enough for
the one-character threshold. -/
def longTarget : Message := { id := 4, role := "user", content := "hello" }

/-- A session (incremental level, threshold 1) whose history is the
hidden message followed by the target. -/
def hiddenSession : ChatSession :=
  { messages := [hiddenMessage, longTarget]
    mask := { context := [], modelConfig := lowThresholdCfg } }

/-- A key erased from an association list can no longer be found. -/
lemma find?_filter_ne_eq_none (l : List (String × Nat)) (k : String) :
    (l.filter (fun e => e.1 != k)).find? (fun e => e.1 == k) = none := by
  rw [List.find?_eq_none]
  intro x hx
  rcases List.mem_filter.mp hx with ⟨-, hne⟩
  simpa [bne] using hne

/-- C7: after `addController(c,m,h)` followed by `remove(c,m)`, a
subsequent `stop(c,m)` is a no-op: it aborts nothing and leaves the
state untouched; and in general `stop` on any unregistered key leaves
the state untouched (it never errors — it is a total function). -/
theorem controllerPool_stop_after_remove_noop :
    ∀ (s : PoolState) (c m h : Nat),
      (ControllerPool.stop
          (ControllerPool.remove (ControllerPool.addController s c m h) c m) c m
        = ControllerPool.remove (ControllerPool.addController s c m h) c m)
      ∧ (∀ (s2 : PoolState) (c2 m2 : Nat),
          ControllerPool.lookup s2 (ControllerPool.key c2 m2) = none →
            ControllerPool.stop s2 c2 m2 = s2) := by
  intro s c m h
  constructor
  · have hlook :
        ControllerPool.lookup
          (ControllerPool.remove (ControllerPool.addController s c m h) c m)
          (ControllerPool.key c m) = none := by
      simp only [ControllerPool.lookup, ControllerPool.remove,
        ControllerPool.addController, List.filter_cons]
      simp [find?_filter_ne_eq_none, List.filter_filter]
    simp [ControllerPool.stop, hlook]
  · intro s2 c2 m2 hnone
    simp [ControllerPool.stop, hnone]

/-- Witness for C7 at a concrete state: register handle 7 under key
(1,2), remove it, and observe that stopping (1,2) changes nothing; a
stop on the empty registry is likewise the identity. -/
theorem controllerPool_stop_after_remove_noop_witness :
    (ControllerPool.stop
        (ControllerPool.remove
          (ControllerPool.addController ⟨[], []⟩ 1 2 7) 1 2) 1 2
      = ControllerPool.remove (ControllerPool.addController ⟨[], []⟩ 1 2 7) 1 2)
    ∧ ControllerPool.stop ⟨[], []⟩ 3 4 = ⟨[], []⟩ := by
  refine ⟨(controllerPool_stop_after_remove_noop ⟨[], []⟩ 1 2 7).1, ?_⟩
  exact (controllerPool_stop_after_remove_noop ⟨[], []⟩ 1 2 7).2 ⟨[], []⟩ 3 4 (by decide)

/-- C10: `stop` never modifies the registry record — the controllers
map after `stop(c,m)` is exactly the map from before, and
`hasPending()` is unchanged; `stopAll` likewise leaves the map
untouched.  Only `addController` and `remove` change the map. -/
theorem controllerPool_stop_frame :
    ∀ (s : PoolState) (c m : Nat),
      (ControllerPool.stop s c m).controllers = s.controllers
      ∧ ControllerPool.hasPending (ControllerPool.stop s c m)
          = ControllerPool.hasPending s
      ∧ (ControllerPool.stopAll s).controllers = s.controllers := by
  intro s c m
  have hc : (ControllerPool.stop s c m).controllers = s.controllers := by
    unfold ControllerPool.stop
    cases ControllerPool.lookup s (ControllerPool.key c m) <;> rfl
  refine ⟨hc, ?_, rfl⟩
  simp [ControllerPool.hasPending, hc]

/-- Witness for C10 at a concrete one-entry registry. -/
theorem controllerPool_stop_frame_witness :
    (ControllerPool.stop ⟨[("1,2", 7)], []⟩ 1 2).controllers = [("1,2", 7)]
    ∧ ControllerPool.hasPending (ControllerPool.stop ⟨[("1,2", 7)], []⟩ 1 2) = true := by
  have h := controllerPool_stop_frame ⟨[("1,2", 7)], []⟩ 1 2
  exact ⟨h.1, by rw [h.2.1]; decide⟩

/-- On a schedule on which the idle watchdog never fires, the read
loop emits exactly one terminal event (one `done=true` completion or
one `onError`, never both). -/
lemma runLoop_terminal_sum (enc : String → Nat) (p : Nat) :
    ∀ (rs : List ReadResult) (acc : String), idleFiredDuring rs = false →
      countDone (runLoop enc p acc rs) + countErr (runLoop enc p acc rs) = 1 := by
  intro rs
  induction rs with
  | nil =>
      intro acc _
      simp [runLoop, countDone, countErr, Event.isDoneMsg, Event.isErr]
  | cons r rest ih =>
      intro acc hfired
      cases r with
      | chunk v d =>
          cases d with
          | true =>
              simp [runLoop, countDone, countErr, Event.isDoneMsg, Event.isErr]
          | false =>
              have hrest : idleFiredDuring rest = false := by
                simpa [idleFiredDuring] using hfired
              have := ih (acc ++ v) hrest
              simpa [runLoop, countDone, countErr, Event.isDoneMsg, Event.isErr,
                List.countP_cons] using this
      | eos => simp [runLoop, countDone, countErr, Event.isDoneMsg, Event.isErr]
      | timeout => simp [idleFiredDuring] at hfired
      | aborted => simp [runLoop, countDone, countErr, Event.isDoneMsg, Event.isErr]

/-- On a schedule on which the idle watchdog fires, the read loop's
trace is a block of `done=false` progress reports followed by exactly
the synthesized completion and then the abort-induced `onError`. -/
lemma runLoop_fired_decomp (enc : String → Nat) (p : Nat) :
    ∀ (rs : List ReadResult) (acc : String), idleFiredDuring rs = true →
      ∃ front t, runLoop enc p acc rs
          = front ++ [Event.msg t true (some p) (some (enc t)),
                      Event.err ErrKind.caught none]
        ∧ ∀ x ∈ front, Event.isDoneMsg x = false ∧ Event.isErr x = false := by
  intro rs
  induction rs with
  | nil => intro acc h; simp [idleFiredDuring] at h
  | cons r rest ih =>
      intro acc hfired
      cases r with
      | chunk v d =>
          cases d with
          | true => simp [idleFiredDuring] at hfired
          | false =>
              have hrest : idleFiredDuring rest = true := by
                simpa [idleFiredDuring] using hfired
              obtain ⟨front, t, heq, hfront⟩ := ih (acc ++ v) hrest
              refine ⟨Event.msg (acc ++ v) false (some p) none :: front, t, ?_, ?_⟩
              · simp [runLoop, heq]
              · intro x hx
                rcases List.mem_cons.mp hx with hx | hx
                · subst hx; exact ⟨rfl, rfl⟩
                · exact hfront x hx
      | eos => simp [idleFiredDuring] at hfired
      | timeout =>
          exact ⟨[], acc, by simp [runLoop], by simp⟩
      | aborted => simp [idleFiredDuring] at hfired

/-- The cumulative texts reported from the read loop have
non-decreasing lengths, starting from the length of the accumulator
the loop is entered with (the sentinel head of the chain). -/
lemma runLoop_view_chain (enc : String → Nat) (p : Nat) :
    ∀ (rs : List ReadResult) (acc : String),
      List.Chain' (fun x y => x.1.length ≤ y.1.length)
        ((acc, false) :: msgView (runLoop enc p acc rs)) := by
  intro rs
  induction rs with
  | nil =>
      intro acc
      simp [runLoop, msgView, Event.view?]
  | cons r rest ih =>
      intro acc
      cases r with
      | chunk v d =>
          cases d with
          | true =>
              simp [runLoop, msgView, Event.view?, String.length_append,
                List.chain'_cons, Nat.le_add_right]
          | false =>
              have h := ih (acc ++ v)
              rw [show runLoop enc p acc (ReadResult.chunk v false :: rest)
                  = Event.msg (acc ++ v) false (some p) none
                      :: runLoop enc p (acc ++ v) rest from by simp [runLoop]]
              rw [show msgView (Event.msg (acc ++ v) false (some p) none
                      :: runLoop enc p (acc ++ v) rest)
                  = (acc ++ v, false) :: msgView (runLoop enc p (acc ++ v) rest) from by
                simp [msgView, Event.view?]]
              exact List.chain'_cons.mpr
                ⟨by simp [String.length_append, Nat.le_add_right], h⟩
      | eos => simp [runLoop, msgView, Event.view?]
      | timeout => simp [runLoop, msgView, Event.view?]
      | aborted => simp [runLoop, msgView, Event.view?]

/-- The `(text, done)` view of a read-loop trace splits into a block
of `done=false` reports optionally followed by a single `done=true`
completion. -/
lemma runLoop_view_split (enc : String → Nat) (p : Nat) :
    ∀ (rs : List ReadResult) (acc : String), ∃ front rest,
      msgView (runLoop enc p acc rs) = front ++ rest
      ∧ (∀ x ∈ front, x.2 = false)
      ∧ (rest = [] ∨ ∃ t, rest = [(t, true)]) := by
  intro rs
  induction rs with
  | nil =>
      intro acc
      exact ⟨[], [(acc, true)], by simp [runLoop, msgView, Event.view?], by simp,
        Or.inr ⟨acc, rfl⟩⟩
  | cons r rest ih =>
      intro acc
      cases r with
      | chunk v d =>
          cases d with
          | true =>
              exact ⟨[(acc ++ v, false)], [(acc ++ v, true)],
                by simp [runLoop, msgView, Event.view?], by simp,
                Or.inr ⟨acc ++ v, rfl⟩⟩
          | false =>
              obtain ⟨front, tail, heq, hfront, htail⟩ := ih (acc ++ v)
              refine ⟨(acc ++ v, false) :: front, tail, ?_, ?_, htail⟩
              · simp only [runLoop, msgView, List.filterMap_cons, Event.view?,
                  List.cons_append]
                exact congrArg (List.cons (acc ++ v, false)) heq
              · intro x hx
                rcases List.mem_cons.mp hx with hx | hx
                · subst hx; rfl
                · exact hfront x hx
      | eos =>
          exact ⟨[], [(acc, true)], by simp [runLoop, msgView, Event.view?], by simp,
            Or.inr ⟨acc, rfl⟩⟩
      | timeout =>
          exact ⟨[], [(acc, true)], by simp [runLoop, msgView, Event.view?], by simp,
            Or.inr ⟨acc, rfl⟩⟩
      | aborted =>
          exact ⟨[], [], by simp [runLoop, msgView, Event.view?], by simp, Or.inl rfl⟩

/-- C4: for a successful (2xx) streamed response delivering exactly
the chunks "Hel" and "lo" followed by end-of-stream,
`requestChatStream` invokes `onMessage` with ("Hel", false), then
("Hello", false), then ("Hello", true) exactly once as the final call,
and never invokes `onError` — for any tokenizer and input message
list. -/
theorem requestChatStream_hello_trace :
    ∀ (enc : String → Nat) (messages : List Message),
      msgView (requestChatStream enc messages helloBehavior)
        = [("Hel", false), ("Hello", false), ("Hello", true)]
      ∧ (requestChatStream enc messages helloBehavior).filter Event.isErr = [] := by
  intro enc messages
  exact ⟨rfl, rfl⟩

/-- Witness for C4 at the length tokenizer and an empty message
list. -/
theorem requestChatStream_hello_trace_witness :
    msgView (requestChatStream String.length [] helloBehavior)
      = [("Hel", false), ("Hello", false), ("Hello", true)]
    ∧ (requestChatStream String.length [] helloBehavior).filter Event.isErr = [] :=
  requestChatStream_hello_trace String.length []

/-- C6: a 401 response yields exactly one `onError` invocation,
classified Unauthorized with status 401, and no `onMessage`
invocation, whatever the tokenizer, the input messages and the
(unreached) body reads. -/
theorem requestChatStream_unauthorized_401 :
    ∀ (enc : String → Nat) (messages : List Message) (reads : List ReadResult),
      requestChatStream enc messages ⟨FetchOutcome.status 401, reads⟩
        = [Event.err ErrKind.unauthorized (some 401)] := by
  intro enc messages reads
  rfl

/-- Witness for C6 at concrete arguments. -/
theorem requestChatStream_unauthorized_401_witness :
    requestChatStream String.length [] ⟨FetchOutcome.status 401, []⟩
      = [Event.err ErrKind.unauthorized (some 401)] :=
  requestChatStream_unauthorized_401 String.length [] []

/-- C5: within any single `requestChatStream` call, every
`onMessage(..., done=false)` invocation strictly precedes the final
`done=true` invocation (no `done=true` occurs before the last
`onMessage`), and the cumulative text lengths are monotonically
non-decreasing across successive `onMessage` invocations. -/
theorem requestChatStream_message_ordering :
    ∀ (enc : String → Nat) (messages : List Message) (b : NetBehavior),
      List.Chain' (fun x y => x.1.length ≤ y.1.length)
        (msgView (requestChatStream enc messages b))
      ∧ ∀ x ∈ (msgView (requestChatStream enc messages b)).dropLast, x.2 = false := by
  intro enc messages b
  obtain ⟨outcome, reads⟩ := b
  cases outcome with
  | thrown => exact ⟨by simp [requestChatStream, msgView, Event.view?], by
      simp [requestChatStream, msgView, Event.view?]⟩
  | status code =>
      by_cases hok : resOk code = true
      · have hrun : requestChatStream enc messages ⟨FetchOutcome.status code, reads⟩
            = runLoop enc (enc (concatContents messages)) "" reads := by
          simp [requestChatStream, hok]
        rw [hrun]
        constructor
        · exact (runLoop_view_chain enc (enc (concatContents messages)) reads "").tail
        · obtain ⟨front, tail, heq, hfront, htail⟩ :=
            runLoop_view_split enc (enc (concatContents messages)) reads ""
          rw [heq]
          rcases htail with rfl | ⟨t, rfl⟩
          · intro x hx
            exact hfront x (List.dropLast_subset _ (by simpa using hx))
          · intro x hx
            rw [List.dropLast_concat] at hx
            exact hfront x hx
      · have hrun : requestChatStream enc messages ⟨FetchOutcome.status code, reads⟩
            = if code == 401 then [Event.err ErrKind.unauthorized (some code)]
              else [Event.err ErrKind.streamError (some code)] := by
          simp [requestChatStream, hok]
        rw [hrun]
        by_cases h401 : (code == 401) = true <;>
          simp [h401, msgView, Event.view?]

/-- Witness for C5 at the simulated hello behaviour: the chain of
non-decreasing lengths on the concrete view, and the `done` flag of
one concrete non-final invocation obtained through the theorem. -/
theorem requestChatStream_message_ordering_witness :
    List.Chain' (fun x y => x.1.length ≤ y.1.length)
      (msgView (requestChatStream String.length [] helloBehavior))
    ∧ (("Hel", false) : String × Bool).2 = false :=
  ⟨(requestChatStream_message_ordering String.length [] helloBehavior).1,
   (requestChatStream_message_ordering String.length [] helloBehavior).2
     ("Hel", false) (by decide)⟩

/-- C1 counterexample: on a successful response that delivers the
chunk "Hel" and then stalls until the per-chunk idle watchdog fires,
the call both synthesizes the `done=true` completion and then invokes
`onError` (the watchdog's `controller.abort()` rejects the pending
read, and the `catch` block reports the rejection) — so an `onError`
invocation does follow the watchdog's synthesized completion, and
"exactly one of done=true / onError, never both" fails. -/
theorem requestChatStream_idle_timeout_emits_done_and_error :
    requestChatStream String.length [] idleTimeoutBehavior
      = [Event.msg "Hel" false (some 0) none,
         Event.msg "Hel" true (some 0) (some 3),
         Event.err ErrKind.caught none]
    ∧ countDone (requestChatStream String.length [] idleTimeoutBehavior) = 1
    ∧ countErr (requestChatStream String.length [] idleTimeoutBehavior) = 1 := by
  exact ⟨rfl, rfl, rfl⟩

/-- C1 as amended: every call invokes exactly one of
`onMessage(..., done=true)` / `onError` — except when the per-chunk
idle watchdog fires mid-stream, in which case the synthesized
`done=true` completion is invoked exactly once and is followed by
exactly one `onError` (the abort-induced read rejection), the
`onError` being the last event and the completion the one before
it. -/
theorem requestChatStream_terminal_profile :
    ∀ (enc : String → Nat) (messages : List Message) (b : NetBehavior),
      (idleFired b = false →
        countDone (requestChatStream enc messages b)
          + countErr (requestChatStream enc messages b) = 1)
      ∧ (idleFired b = true →
        countDone (requestChatStream enc messages b) = 1
        ∧ countErr (requestChatStream enc messages b) = 1
        ∧ (requestChatStream enc messages b).getLast?
            = some (Event.err ErrKind.caught none)
        ∧ ((requestChatStream enc messages b).dropLast.getLast?.map Event.isDoneMsg)
            = some true) := by
  intro enc messages b
  obtain ⟨outcome, reads⟩ := b
  cases outcome with
  | thrown =>
      refine ⟨fun _ => ?_, fun hfired => ?_⟩
      · simp [requestChatStream, countDone, countErr, Event.isDoneMsg, Event.isErr]
      · simp [idleFired] at hfired
  | status code =>
      by_cases hok : resOk code = true
      · have hrun : requestChatStream enc messages ⟨FetchOutcome.status code, reads⟩
            = runLoop enc (enc (concatContents messages)) "" reads := by
          simp [requestChatStream, hok]
        refine ⟨fun hnot => ?_, fun hfired => ?_⟩
        · have hnf : idleFiredDuring reads = false := by
            simpa [idleFired, hok] using hnot
          rw [hrun]
          exact runLoop_terminal_sum enc _ reads "" hnf
        · have hf : idleFiredDuring reads = true := by
            simpa [idleFired, hok] using hfired
          obtain ⟨front, t, heq, hfront⟩ :=
            runLoop_fired_decomp enc (enc (concatContents messages)) reads "" hf
          have hdone0 : List.countP Event.isDoneMsg front = 0 :=
            List.countP_eq_zero.mpr (fun x hx => by simp [(hfront x hx).1])
          have herr0 : List.countP Event.isErr front = 0 :=
            List.countP_eq_zero.mpr (fun x hx => by simp [(hfront x hx).2])
          have hassoc : front
                ++ [Event.msg t true (some (enc (concatContents messages)))
                      (some (enc t)),
                    Event.err ErrKind.caught none]
              = (front ++ [Event.msg t true (some (enc (concatContents messages)))
                  (some (enc t))]) ++ [Event.err ErrKind.caught none] := by
            simp
          refine ⟨?_, ?_, ?_, ?_⟩
          · rw [hrun, heq]
            simp [countDone, List.countP_append, hdone0, Event.isDoneMsg]
          · rw [hrun, heq]
            simp [countErr, List.countP_append, herr0, Event.isErr]
          · rw [hrun, heq, hassoc, List.getLast?_concat]
          · rw [hrun, heq, hassoc, List.dropLast_concat, List.getLast?_concat]
            rfl
      · have hrun : requestChatStream enc messages ⟨FetchOutcome.status code, reads⟩
            = if code == 401 then [Event.err ErrKind.unauthorized (some code)]
              else [Event.err ErrKind.streamError (some code)] := by
          simp [requestChatStream, hok]
        refine ⟨fun _ => ?_, fun hfired => ?_⟩
        · rw [hrun]
          by_cases h401 : (code == 401) = true <;>
            simp [h401, countDone, countErr, Event.isDoneMsg, Event.isErr]
        · rw [idleFired] at hfired
          simp [hok] at hfired

/-- C2 counterexample: a message with `useSummary = false` but a
truthy cached summary, in a session whose summarization level is
`Incremental`, is rendered by `makeRequestParam` (part_000/part_003)
as the marker-prefixed summary, not as its original content — the flag
is not consulted.  The inequality holds whatever the marker's actual
text, since the rendered content ends in "s" while the original
content is "hi". -/
theorem makeRequestParam_substitutes_despite_flag_off :
    flagOffMessage.useSummary = false
    ∧ (makeRequestParam_v0 incACfg flagOffSession [flagOffMessage] {}).messages
        = [⟨"user", summaryMarker ++ " " ++ "s"⟩]
    ∧ summaryMarker ++ " " ++ "s" ≠ flagOffMessage.content := by
  exact ⟨rfl, rfl, by decide⟩

/-- C2 as amended: a message with `useSummary = false` is rendered
verbatim by part_001's flag-gated assembler (at position `i + 1`,
after the persona preamble); the other assemblers render it verbatim
only when the message's summary is absent or empty
(part_000/part_002/part_003), or when the summarization level is not
`Incremental` (part_000/part_003). -/
theorem makeRequestParam_verbatim_characterization :
    ∀ (appConfig : ModelConfig) (session : ChatSession) (messages : List Message)
      (options : RequestOptions) (i : Nat) (m : Message),
      messages[i]? = some m →
      ((m.useSummary = false →
          (makeRequestParam_v1 appConfig session messages options).messages[i + 1]?
            = some ⟨m.role, m.content⟩)
       ∧ (strTruthy m.summary = false →
          (makeRequestParam_v0 appConfig session messages options).messages[i]?
            = some ⟨m.role, m.content⟩
          ∧ (makeRequestParam_v2 appConfig session messages options).messages[i + 1]?
            = some ⟨m.role, m.content⟩)
       ∧ (session.mask.modelConfig.summaryLevel ≠ SummaryLevel.incremental →
          (makeRequestParam_v0 appConfig session messages options).messages[i]?
            = some ⟨m.role, m.content⟩)) := by
  intro appConfig session messages options i m hi
  refine ⟨fun hflag => ?_, fun hsum => ⟨?_, ?_⟩, fun hlvl => ?_⟩
  · simp [makeRequestParam_v1, List.getElem?_cons_succ, List.getElem?_map, hi, hflag]
  · simp [makeRequestParam_v0, List.getElem?_map, hi, hsum]
  · simp [makeRequestParam_v2, List.map_map, List.getElem?_cons_succ,
      List.getElem?_map, hi, Function.comp, getMessageOrSummary,
      isMessageInSummaryMode, hsum]
  · have hbeq : (session.mask.modelConfig.summaryLevel
        == SummaryLevel.incremental) = false := by
      simpa using hlvl
    simp [makeRequestParam_v0, List.getElem?_map, hi, hbeq]

/-- Witness for C2's amended claim: a flag-off, summary-free message
in an incremental-level session and in a summarization-off session. -/
theorem makeRequestParam_verbatim_characterization_witness :
    ((makeRequestParam_v1 incACfg shortSession [shortMessage] {}).messages[1]?
      = some ⟨"user", "x"⟩)
    ∧ ((makeRequestParam_v0 incACfg shortSession [shortMessage] {}).messages[0]?
      = some ⟨"user", "x"⟩)
    ∧ ((makeRequestParam_v2 incACfg shortSession [shortMessage] {}).messages[1]?
      = some ⟨"user", "x"⟩)
    ∧ ((makeRequestParam_v0 offCfg
        ⟨[shortMessage], ⟨[], offCfg⟩⟩ [shortMessage] {}).messages[0]?
      = some ⟨"user", "x"⟩) := by
  have h1 := makeRequestParam_verbatim_characterization incACfg shortSession
    [shortMessage] {} 0 shortMessage rfl
  have h2 := makeRequestParam_verbatim_characterization offCfg
    ⟨[shortMessage], ⟨[], offCfg⟩⟩ [shortMessage] {} 0 shortMessage rfl
  exact ⟨h1.1 rfl, (h1.2.1 rfl).1, (h1.2.1 rfl).2, h2.2.2 (by decide)⟩

/-- C3 counterexample: part_001's `summarizeMessageIncrementally` (its
level and threshold guards are commented out) issues the summarization
sub-request for a one-character message, far below the session's
100-character compression threshold. -/
theorem summarize_v1_issues_below_threshold :
    shortMessage.content.length
        < shortSession.mask.modelConfig.compressMessageLengthThreshold
    ∧ (summarizeMessageIncrementally_v1 shortMessage shortSession
        (ReqOutcome.returned none)).subRequest.isSome = true := by
  exact ⟨by decide, by decide⟩

/-- C3 as amended: in the part_002 iteration, a message whose content
length is strictly below the configured threshold never issues the
summarization sub-request and passes through unmodified, whatever the
summarization level and the sub-request's would-be outcome; the
part_001 iteration lacks the guards and issues the sub-request for any
message found in its session. -/
theorem summarize_v2_below_threshold_noop :
    ∀ (message : Message) (session : ChatSession) (o : ReqOutcome),
      message.content.length
          < session.mask.modelConfig.compressMessageLengthThreshold →
      summarizeMessageIncrementally_v2 message session o
        = ⟨none, false, message⟩ := by
  intro message session o hlt
  unfold summarizeMessageIncrementally_v2
  by_cases hlvl : session.mask.modelConfig.summaryLevel ≠ SummaryLevel.incremental
  · simp [hlvl]
  · simp [hlvl, hlt]

/-- Witness for C3's amended claim at the concrete short message. -/
theorem summarize_v2_below_threshold_noop_witness :
    summarizeMessageIncrementally_v2 shortMessage shortSession ReqOutcome.thrown
      = ⟨none, false, shortMessage⟩ :=
  summarize_v2_below_threshold_noop shortMessage shortSession ReqOutcome.thrown
    (by decide)

/-- An index returned by `indexOfMessage` is a valid position in the
list. -/
lemma indexOfMessage_lt_length :
    ∀ (l : List Message) (m : Message) (i : Nat),
      indexOfMessage l m = some i → i < l.length := by
  intro l
  induction l with
  | nil => intro m i h; simp [indexOfMessage] at h
  | cons x xs ih =>
      intro m i h
      by_cases hx : x = m
      · simp [indexOfMessage, hx] at h
        simp only [List.length_cons]
        omega
      · simp [indexOfMessage, hx] at h
        obtain ⟨j, hj, hji⟩ := h
        have := ih m j hj
        simp only [List.length_cons]
        omega

/-- C8 counterexample: part_002's summarization sub-request does not
exclude hidden messages — with a hidden prior message in the history,
the sub-conversation passed to the sub-request contains the hidden
message's content. -/
theorem summarize_v2_includes_hidden_message :
    hiddenMessage.hidden = true
    ∧ ((summarizeMessageIncrementally_v2 longTarget hiddenSession
          (ReqOutcome.returned none)).subRequest.getD []).any
        (fun m => m.content == "secret") = true := by
  exact ⟨rfl, by decide⟩

/-- C8 as amended: when part_002's guards pass and the target sits at
index `i` of its session, the sub-request consists of the session's
persistent system messages, then the instruction message, then every
prior message up to and including the target — hidden ones included —
each rendered through `getMessageOrSummary` (its own summary when one
is cached, its content otherwise). -/
theorem summarize_v2_subrequest_shape :
    ∀ (message : Message) (session : ChatSession) (o : ReqOutcome) (i : Nat),
      session.mask.modelConfig.summaryLevel = SummaryLevel.incremental →
      session.mask.modelConfig.compressMessageLengthThreshold
        ≤ message.content.length →
      indexOfMessage session.messages message = some i →
      ((summarizeMessageIncrementally_v2 message session o).subRequest.isSome = true
       ∧ ((summarizeMessageIncrementally_v2 message session o).subRequest.getD
            []).take
          (session.mask.context.filter (fun m => m.role == "system")).length
        = session.mask.context.filter (fun m => m.role == "system")
       ∧ ((summarizeMessageIncrementally_v2 message session o).subRequest.getD
            [])[(session.mask.context.filter (fun m => m.role == "system")).length]?
        = some summarizeInstructionMessage
       ∧ ((summarizeMessageIncrementally_v2 message session o).subRequest.getD
            []).length
        = (session.mask.context.filter (fun m => m.role == "system")).length
            + 1 + (i + 1)
       ∧ ∀ j, j ≤ i →
          ((summarizeMessageIncrementally_v2 message session o).subRequest.getD
            [])[(session.mask.context.filter
                  (fun m => m.role == "system")).length + 1 + j]?
            = (session.messages[j]?).map
                (fun m => (getMessageOrSummary m session false).1)) := by
  intro message session o i hlvl hge hidx
  have hnot : ¬ session.mask.modelConfig.summaryLevel ≠ SummaryLevel.incremental := by
    simp [hlvl]
  have hnlt : ¬ message.content.length
      < session.mask.modelConfig.compressMessageLengthThreshold :=
    Nat.not_lt.mpr hge
  have hilt : i < session.messages.length :=
    indexOfMessage_lt_length session.messages message i hidx
  have hreq : (summarizeMessageIncrementally_v2 message session o).subRequest
      = some (session.mask.context.filter (fun m => m.role == "system")
          ++ [summarizeInstructionMessage]
          ++ (session.messages.take (i + 1)).map
              (fun m => (getMessageOrSummary m session false).1)) := by
    unfold summarizeMessageIncrementally_v2
    rw [if_neg hnot, if_neg hnlt, hidx]
    cases o with
    | thrown => rfl
    | returned response =>
        cases hr : response.bind (fun r => r.content) with
        | none => simp [hr]
        | some summary =>
            by_cases hs : (summary != "") = true <;> simp [hr, hs]
  have hgetd : (summarizeMessageIncrementally_v2 message session o).subRequest.getD []
      = session.mask.context.filter (fun m => m.role == "system")
          ++ [summarizeInstructionMessage]
          ++ (session.messages.take (i + 1)).map
              (fun m => (getMessageOrSummary m session false).1) := by
    rw [hreq]; rfl
  refine ⟨by rw [hreq]; rfl, ?_, ?_, ?_, ?_⟩
  · rw [hgetd, List.append_assoc, List.take_left]
  · rw [hgetd, List.append_assoc,
      List.getElem?_append_right (Nat.le_refl _)]
    simp
  · have hmin : min (i + 1) session.messages.length = i + 1 :=
      Nat.min_eq_left (Nat.succ_le_of_lt hilt)
    rw [hgetd]
    simp only [List.length_append, List.length_map, List.length_take,
      List.length_cons, List.length_nil, hmin]
  · intro j hj
    rw [hgetd, List.append_assoc]
    have hlen : (session.mask.context.filter (fun m => m.role == "system")).length
        ≤ (session.mask.context.filter (fun m => m.role == "system")).length
            + 1 + j := by omega
    rw [List.getElem?_append_right hlen]
    have hsub : (session.mask.context.filter (fun m => m.role == "system")).length
          + 1 + j
        - (session.mask.context.filter (fun m => m.role == "system")).length
        = j + 1 := by omega
    rw [hsub, List.singleton_append, List.getElem?_cons_succ, List.getElem?_map,
      List.getElem?_take_of_lt (by omega : j < i + 1)]

/-- Witness for C8's amended claim at the hidden-message session: the
target sits at index 1, the instruction message is at position 0 (the
session has no system context messages), and the rendering of the
prior message at index 1 (the target itself) is obtained from the
theorem at `j = 1`. -/
theorem summarize_v2_subrequest_shape_witness :
    ((summarizeMessageIncrementally_v2 longTarget hiddenSession
        ReqOutcome.thrown).subRequest.isSome = true)
    ∧ ((summarizeMessageIncrementally_v2 longTarget hiddenSession
        ReqOutcome.thrown).subRequest.getD [])[0]?
      = some summarizeInstructionMessage
    ∧ ((summarizeMessageIncrementally_v2 longTarget hiddenSession
        ReqOutcome.thrown).subRequest.getD []).length = 3
    ∧ ((summarizeMessageIncrementally_v2 longTarget hiddenSession
        ReqOutcome.thrown).subRequest.getD [])[2]?
      = (hiddenSession.messages[1]?).map
          (fun m => (getMessageOrSummary m hiddenSession false).1) := by
  have h := summarize_v2_subrequest_shape longTarget hiddenSession
    ReqOutcome.thrown 1 rfl (by decide) (by decide)
  exact ⟨h.1, h.2.2.1, h.2.2.2.1, h.2.2.2.2 1 (Nat.le_refl 1)⟩

/-- C9 counterexample: when the summarization sub-request's underlying
`fetch` rejects (`requestChat` awaits it outside its `try` block), the
promise returned by part_002's `summarizeMessageIncrementally` rejects
— the failure is not fully absorbed, contradicting "nothing is thrown
to the caller" — although the target message is still left
unchanged. -/
theorem summarize_v2_network_failure_rejects :
    (summarizeMessageIncrementally_v2 longTarget hiddenSession
        ReqOutcome.thrown).thrown = true
    ∧ (summarizeMessageIncrementally_v2 longTarget hiddenSession
        ReqOutcome.thrown).subRequest.isSome = true
    ∧ (summarizeMessageIncrementally_v2 longTarget hiddenSession
        ReqOutcome.thrown).message = longTarget := by
  exact ⟨by decide, by decide, by decide⟩

/-- C9 as amended: on any failing or empty sub-request outcome —
transport-level rejection, the `undefined` that `requestChat` returns
after a parse failure, a response with no content, or an empty summary
— the target message is left entirely unchanged (summary, `useSummary`
and `nSummaryTokens` keep their prior values); HTTP-error and
malformed-response failures are absorbed, and the only way the
operation's promise rejects is the transport-level rejection of the
sub-request itself. -/
theorem summarize_v2_failure_leaves_message_unchanged :
    ∀ (message : Message) (session : ChatSession) (o : ReqOutcome),
      (o = ReqOutcome.thrown ∨ extractedContent o = none
        ∨ extractedContent o = some "") →
      ((summarizeMessageIncrementally_v2 message session o).message = message
       ∧ ((summarizeMessageIncrementally_v2 message session o).thrown = true →
            o = ReqOutcome.thrown)) := by
  intro message session o ho
  unfold summarizeMessageIncrementally_v2
  by_cases h1 : session.mask.modelConfig.summaryLevel ≠ SummaryLevel.incremental
  · simp [h1]
  · by_cases h2 : message.content.length
        < session.mask.modelConfig.compressMessageLengthThreshold
    · simp [h1, h2]
    · cases hidx : indexOfMessage session.messages message with
      | none => simp [h1, h2, hidx]
      | some i =>
          cases o with
          | thrown => simp [h1, h2, hidx]
          | returned response =>
              have hc : response.bind (fun r => r.content) = none
                  ∨ response.bind (fun r => r.content) = some "" := by
                simpa [extractedContent] using ho
              rcases hc with hc | hc
              · simp [h1, h2, hidx, hc]
              · simp [h1, h2, hidx, hc]

/-- Witness for C9's amended claim at a transport-level rejection of
the sub-request for the concrete target. -/
theorem summarize_v2_failure_leaves_message_unchanged_witness :
    (summarizeMessageIncrementally_v2 longTarget hiddenSession
        ReqOutcome.thrown).message = longTarget
    ∧ ReqOutcome.thrown = ReqOutcome.thrown := by
  refine ⟨(summarize_v2_failure_leaves_message_unchanged longTarget hiddenSession
    ReqOutcome.thrown (Or.inl rfl)).1, ?_⟩
  exact (summarize_v2_failure_leaves_message_unchanged longTarget hiddenSession
    ReqOutcome.thrown (Or.inl rfl)).2 (by decide)

/-- Witness for C1's amended claim: a 404 response (watchdog not
fired) yields exactly one terminal event, and the idle-timeout
behaviour (watchdog fired) yields the synthesized completion followed
by the single `onError` as the last event. -/
theorem requestChatStream_terminal_profile_witness :
    (countDone (requestChatStream String.length [] ⟨FetchOutcome.status 404, []⟩)
      + countErr (requestChatStream String.length [] ⟨FetchOutcome.status 404, []⟩)
      = 1)
    ∧ countDone (requestChatStream String.length [] idleTimeoutBehavior) = 1
    ∧ countErr (requestChatStream String.length [] idleTimeoutBehavior) = 1
    ∧ (requestChatStream String.length [] idleTimeoutBehavior).getLast?
        = some (Event.err ErrKind.caught none)
    ∧ ((requestChatStream String.length [] idleTimeoutBehavior).dropLast.getLast?.map
        Event.isDoneMsg) = some true := by
  refine ⟨(requestChatStream_terminal_profile String.length []
    ⟨FetchOutcome.status 404, []⟩).1 (by decide), ?_⟩
  have h := (requestChatStream_terminal_profile String.length []
    idleTimeoutBehavior).2 (by decide)
  exact ⟨h.1, h.2.1, h.2.2.1, h.2.2.2⟩
